import Mathlib

/-!
Verification of the 2-D physics simulation (src/math_core.py, src/objects.py).

Python floats are modelled as exact rationals (ℚ); this is the "exact
arithmetic / to floating-point tolerance" idealization.  A square root of a
rational is irrational in general, so the magnitude `(x**2 + y**2) ** 0.5` of
`math_core.Vector` is handled in two ways:
* per-call theorems take the magnitude as an extra argument `mag` constrained
  by `IsMagnitude` (nonnegative, squaring to `x^2 + y^2`), which pins it to
  the unique real value the Python code computes;
* the whole-run embedding takes an arbitrary oracle `sqrtFn : ℚ → ℚ` for the
  continuous value while deciding every comparison and every zero test
  exactly (`sqrt s > b` iff `b < 0 ∨ b^2 < s` for `s ≥ 0`), so branch
  structure, error behaviour and history shapes are exact.

Error behaviour: Python raises ZeroDivisionError on division by `0.0`; the
embeddings of fallible code return `Option`, with `none` standing for a
raised exception.
-/

namespace Sim

/-- The two-dimensional `Vector` class of src/math_core.py (lines 134-213):
an x and a y coordinate, both Python floats, modelled as rationals. -/
@[ext] structure Vector where
  x : ℚ
  y : ℚ
  deriving DecidableEq

/-- `Vector.__add__` (src/math_core.py line 163): component-wise addition. -/
def Vector.add (v w : Vector) : Vector := ⟨v.x + w.x, v.y + w.y⟩

/-- `Vector.__sub__` (src/math_core.py line 168): component-wise subtraction. -/
def Vector.sub (v w : Vector) : Vector := ⟨v.x - w.x, v.y - w.y⟩

/-- `Vector.__mul__` (src/math_core.py line 173): scaling by a scalar
(`__rmul__` delegates here, so `scalar * vector` is the same operation). -/
def Vector.mulScalar (v : Vector) (c : ℚ) : Vector := ⟨v.x * c, v.y * c⟩

/-- `Vector.__truediv__` (src/math_core.py line 183): division by a scalar.
Division by zero raises in Python; callers that can hit it are modelled
with `Option` and test the divisor for zero first. -/
def Vector.divScalar (v : Vector) (c : ℚ) : Vector := ⟨v.x / c, v.y / c⟩

instance : Add Vector := ⟨Vector.add⟩
instance : Sub Vector := ⟨Vector.sub⟩
instance : HMul Vector ℚ Vector := ⟨Vector.mulScalar⟩
instance : HDiv Vector ℚ Vector := ⟨Vector.divScalar⟩

@[simp] theorem Vector.add_def (v w : Vector) : v + w = ⟨v.x + w.x, v.y + w.y⟩ := rfl
@[simp] theorem Vector.sub_def (v w : Vector) : v - w = ⟨v.x - w.x, v.y - w.y⟩ := rfl
@[simp] theorem Vector.mul_def (v : Vector) (c : ℚ) : v * c = ⟨v.x * c, v.y * c⟩ := rfl
@[simp] theorem Vector.div_def (v : Vector) (c : ℚ) : v / c = ⟨v.x / c, v.y / c⟩ := rfl

/-- The square of the magnitude of a vector: `x**2 + y**2`, the radicand in
`Vector.magnitude` (src/math_core.py line 213). -/
def Vector.sqMagnitude (v : Vector) : ℚ := v.x ^ 2 + v.y ^ 2

/-- `m` is exactly the value of `Vector.magnitude` (src/math_core.py line 213),
`(x**2 + y**2) ** 0.5`: the nonnegative square root of `sqMagnitude`. -/
def IsMagnitude (v : Vector) (m : ℚ) : Prop := 0 ≤ m ∧ m ^ 2 = v.sqMagnitude

instance (v : Vector) (m : ℚ) : Decidable (IsMagnitude v m) := by
  unfold IsMagnitude; infer_instance

/-- Decides `Vector.magnitude > bound` exactly: for a nonnegative real root,
`sqrt s > b` iff `b < 0` or `b^2 < s`. -/
def magnitudeGT (v : Vector) (bound : ℚ) : Bool :=
  decide (bound < 0) || decide (bound ^ 2 < v.sqMagnitude)

/-- `dot_product` from src/math_core.py (lines 216-234).  Note: the body
(line 234) returns `vec1.x * vec2.x + vec1.y + vec2.y` — the y components are
added, not multiplied. -/
def dot_product (vec1 vec2 : Vector) : ℚ := vec1.x * vec2.x + vec1.y + vec2.y

/-- The scalar product as the spec and the function's own docstring state it:
`scalar_product = v1_x * v2_x + v1_y * v2_y`. -/
def dot_product_documented (vec1 vec2 : Vector) : ℚ := vec1.x * vec2.x + vec1.y * vec2.y

/-! ## Value-level embedding of the per-pair interactions

One call of `Interactions._elastic_collision` (src/objects.py lines 238-277)
reads and rebinds only the slot-`step` values of the two objects' histories,
so its input/output behaviour is captured by plain values. -/

/-- The fields of a `SimulationObject` one `_elastic_collision` call reads:
the slot-`step` position and velocity, the mass and the radius. -/
structure BodyVals where
  pos : Vector
  vel : Vector
  mass : ℚ
  radius : ℚ
  deriving DecidableEq

/-- `Interactions._elastic_collision` (src/objects.py lines 238-277) as a
function of the slot-`step` values.  `mag` is the value of
`distance.magnitude` (constrained by `IsMagnitude` in the theorems).
`none` models a raised ZeroDivisionError: dividing by a zero magnitude at
line 261, or by a zero mass / a zero inverse-mass sum at line 272.
`some (v1, v2)` returns the two slot-`step` velocities after the call. -/
def elasticCollision (obj1 obj2 : BodyVals) (mag : ℚ) : Option (Vector × Vector) :=
  let distance := obj2.pos - obj1.pos
  if obj1.radius + obj2.radius < mag then some (obj1.vel, obj2.vel)
  else if mag = 0 then none
  else
    let norm_vector := distance / mag
    let relative_velocity := dot_product (obj1.vel - obj2.vel) norm_vector
    if relative_velocity < 0 then some (obj1.vel, obj2.vel)
    else if obj1.mass = 0 ∨ obj2.mass = 0 then none
    else if 1 / obj1.mass + 1 / obj2.mass = 0 then none
    else
      let impulse := norm_vector * (2 * relative_velocity / (1 / obj1.mass + 1 / obj2.mass))
      some (obj1.vel - impulse / obj1.mass, obj2.vel + impulse / obj2.mass)

/-- Kinetic energy `½·m·|v|²` of one body. -/
def kineticEnergy (mass : ℚ) (v : Vector) : ℚ := 1 / 2 * mass * v.sqMagnitude

/-- Momentum `m·v` of one body. -/
def momentum (mass : ℚ) (v : Vector) : Vector := v * mass

end Sim

namespace Sim

/-- C1.  The claim "dot_product(v1, v2) equals v1.x * v2.x + v1.y * v2.y"
fails: at `v1 = (0, 2)`, `v2 = (0, 3)` the code (src/math_core.py line 234)
returns `0*0 + 2 + 3 = 5`, while the documented formula gives
`0*0 + 2*3 = 6`. -/
theorem dot_product_deviates_from_documented_formula :
    dot_product ⟨0, 2⟩ ⟨0, 3⟩ = 5 ∧ dot_product_documented ⟨0, 2⟩ ⟨0, 3⟩ = 6 ∧
      dot_product ⟨0, 2⟩ ⟨0, 3⟩ ≠ dot_product_documented ⟨0, 2⟩ ⟨0, 3⟩ := by
  norm_num [dot_product, dot_product_documented]

/-- C2.  Kinetic energy is not conserved by `_elastic_collision`: with unit
masses and radii, bodies at `(0,0)` and `(1,0)` (separation magnitude 1) and
velocities `(1,1)` and `(0,0)`, the call resolves the pair to velocities
`(-1,1)` and `(2,0)`, taking the pair's kinetic energy from 1 to 3.  The
cause is the defective `dot_product` (C1): the closing speed along the
normal comes out as 2 instead of 1. -/
theorem elastic_collision_energy_not_conserved :
    elasticCollision ⟨⟨0, 0⟩, ⟨1, 1⟩, 1, 1⟩ ⟨⟨1, 0⟩, ⟨0, 0⟩, 1, 1⟩ 1
        = some (⟨-1, 1⟩, ⟨2, 0⟩) ∧
      IsMagnitude (Vector.sub ⟨1, 0⟩ ⟨0, 0⟩) 1 ∧
      kineticEnergy 1 ⟨1, 1⟩ + kineticEnergy 1 ⟨0, 0⟩ = 1 ∧
      kineticEnergy 1 ⟨-1, 1⟩ + kineticEnergy 1 ⟨2, 0⟩ = 3 := by
  norm_num [elasticCollision, dot_product, IsMagnitude, kineticEnergy,
    Vector.sqMagnitude, Vector.sub]

/-- C4.  Coincident centers are not skipped: with both bodies at `(2,2)`
(separation magnitude 0, radii 1 so the overlap test passes),
`_elastic_collision` reaches `distance / distance.magnitude` and divides by
zero — a raised ZeroDivisionError (`none`), not a skip. -/
theorem coincident_centers_divide_by_zero :
    elasticCollision ⟨⟨2, 2⟩, ⟨1, 0⟩, 1, 1⟩ ⟨⟨2, 2⟩, ⟨0, 0⟩, 1, 1⟩ 0 = none ∧
      IsMagnitude (Vector.sub ⟨2, 2⟩ ⟨2, 2⟩) 0 := by
  norm_num [elasticCollision, IsMagnitude, Vector.sqMagnitude, Vector.sub]

/-- Applying an impulse `J` with opposite signs, each divided by the
receiving body's mass, leaves the total momentum unchanged. -/
theorem momentum_update (m1 m2 : ℚ) (v1 v2 J : Vector) (hm1 : m1 ≠ 0) (hm2 : m2 ≠ 0) :
    momentum m1 (v1 - J / m1) + momentum m2 (v2 + J / m2) = momentum m1 v1 + momentum m2 v2 := by
  unfold momentum
  ext <;> simp only [Vector.sub_def, Vector.add_def, Vector.mul_def, Vector.div_def] <;>
    field_simp

/-- C5.  Momentum conservation: whenever `_elastic_collision` completes on a
pair (returning slot-`step` velocities `v1'`, `v2'` rather than raising),
`massI*velI + massJ*velJ` is unchanged, exactly. -/
theorem elastic_collision_conserves_momentum (obj1 obj2 : BodyVals) (mag : ℚ)
    (hmag : IsMagnitude (obj2.pos - obj1.pos) mag)
    (v1' v2' : Vector)
    (h : elasticCollision obj1 obj2 mag = some (v1', v2')) :
    momentum obj1.mass v1' + momentum obj2.mass v2' =
      momentum obj1.mass obj1.vel + momentum obj2.mass obj2.vel := by
  unfold elasticCollision at h
  dsimp only at h
  split_ifs at h with h1 h2 h3 h4 h5
  · simp only [Option.some.injEq, Prod.mk.injEq] at h
    obtain ⟨rfl, rfl⟩ := h; rfl
  · simp only [Option.some.injEq, Prod.mk.injEq] at h
    obtain ⟨rfl, rfl⟩ := h; rfl
  · push_neg at h4
    obtain ⟨hm1, hm2⟩ := h4
    simp only [Option.some.injEq, Prod.mk.injEq] at h
    obtain ⟨rfl, rfl⟩ := h
    exact momentum_update obj1.mass obj2.mass obj1.vel obj2.vel _ hm1 hm2

/-- Witness for C5 at a concrete collision: masses 1 and 3, positions
`(0,0)` and `(3,4)` (separation magnitude 5, radii 3 and 3), velocities
`(4,0)` and `(0,0)`; the resolved velocities keep the total momentum. -/
theorem elastic_collision_conserves_momentum_witness :
    momentum 1 ⟨28/25, -96/25⟩ + momentum 3 ⟨24/25, 32/25⟩ =
      momentum 1 ⟨4, 0⟩ + momentum 3 ⟨0, 0⟩ :=
  elastic_collision_conserves_momentum ⟨⟨0, 0⟩, ⟨4, 0⟩, 1, 3⟩ ⟨⟨3, 4⟩, ⟨0, 0⟩, 3, 3⟩ 5
    (by norm_num [IsMagnitude, Vector.sqMagnitude])
    ⟨28/25, -96/25⟩ ⟨24/25, 32/25⟩
    (by norm_num [elasticCollision, dot_product])

end Sim

namespace Sim

/-- `scipy.constants.pi` as the Python float the code imports
(src/objects.py line 14), read back as an exact rational. -/
def scipy_pi : ℚ := 3.141592653589793

/-- `scipy.constants.epsilon_0` as the Python float the code imports
(src/objects.py line 14). -/
def scipy_epsilon_0 : ℚ := 8.8541878128e-12

/-- The elementary-charge factor `1.602176634e-19` used at
src/objects.py lines 302-303 to convert charges to coulombs. -/
def elementary_charge : ℚ := 1.602176634e-19

/-- The fields of a `Molecule` one `_molecule_interaction` call touches:
the slot-`step` position, the radius, the charge and the acceleration
accumulator. -/
structure MoleculeVals where
  pos : Vector
  radius : ℚ
  charge : ℤ
  acc : Vector
  deriving DecidableEq

/-- `Interactions._molecule_interaction` (src/objects.py lines 279-314) as a
function of the fields it touches.  `mag` is the value of
`distance.magnitude` for the metre-converted separation
`(obj2.position[step] - obj1.position[step]) * 1e-12` (constrained by
`IsMagnitude` in the theorems).  `none` models the ZeroDivisionError raised
at line 309 when `distance.magnitude ** 3` is zero (reachable only for a
negative radius sum, since otherwise the guard at line 298 skips first).
`some (a1, a2)` returns the two acceleration accumulators after the call. -/
def moleculeInteraction (obj1 obj2 : MoleculeVals) (mag : ℚ) : Option (Vector × Vector) :=
  let distance := (obj2.pos - obj1.pos) * (1e-12 : ℚ)
  if mag ≤ (obj1.radius + obj2.radius) * 1e-12 then some (obj1.acc, obj2.acc)
  else if mag = 0 then none
  else
    let coulomb_1 := (obj1.charge : ℚ) * elementary_charge
    let coulomb_2 := (obj2.charge : ℚ) * elementary_charge
    let force := (distance / mag ^ 3 * (coulomb_1 * coulomb_2 / (4 * scipy_pi * scipy_epsilon_0))) * (1e12 : ℚ)
    some (obj1.acc - force, obj2.acc + force)

/-- The Coulomb force as the claim words it: `F = (q1*e)(q2*e)/(4*pi*eps0) *
dhat/|d|^2`, scaled by `1e12`, with `dhat = d/|d|` the unit vector of the
metre-converted separation `d`. -/
def coulombForceClaim (obj1 obj2 : MoleculeVals) (mag : ℚ) : Vector :=
  let d := (obj2.pos - obj1.pos) * (1e-12 : ℚ)
  let dhat := d / mag
  (dhat / mag ^ 2 *
    ((obj1.charge : ℚ) * elementary_charge * ((obj2.charge : ℚ) * elementary_charge) /
      (4 * scipy_pi * scipy_epsilon_0))) * (1e12 : ℚ)

/-- Dividing a vector by two scalars in turn divides it by their product. -/
theorem Vector.div_two_scalars (v : Vector) (a b : ℚ) : v / a / b = v / (a * b) := by
  ext <;> simp only [Vector.div_def] <;> exact div_div ..

/-- C6.  `_molecule_interaction` behaves as claimed (for physical,
nonnegative radii): when the metre-converted separation magnitude exceeds
the converted radius sum it subtracts the Coulomb force
`(q1·e)(q2·e)/(4π·ε0) · d̂/|d|² · 1e12` from obj1's acceleration and adds it
to obj2's, with no division by mass anywhere; otherwise it skips, leaving
both accelerations unchanged. -/
theorem molecule_interaction_matches_claim (obj1 obj2 : MoleculeVals) (mag : ℚ)
    (hmag : IsMagnitude ((obj2.pos - obj1.pos) * (1e-12 : ℚ)) mag)
    (hr1 : 0 ≤ obj1.radius) (hr2 : 0 ≤ obj2.radius) :
    if (obj1.radius + obj2.radius) * 1e-12 < mag then
      moleculeInteraction obj1 obj2 mag =
        some (obj1.acc - coulombForceClaim obj1 obj2 mag,
              obj2.acc + coulombForceClaim obj1 obj2 mag)
    else
      moleculeInteraction obj1 obj2 mag = some (obj1.acc, obj2.acc) := by
  split_ifs with hgt
  · have hbound : (0 : ℚ) ≤ (obj1.radius + obj2.radius) * 1e-12 :=
      mul_nonneg (add_nonneg hr1 hr2) (by norm_num)
    have hmagne : mag ≠ 0 := ne_of_gt (lt_of_le_of_lt hbound hgt)
    unfold moleculeInteraction coulombForceClaim
    rw [if_neg (not_le.mpr hgt), if_neg hmagne]
    dsimp only
    rw [show ((obj2.pos - obj1.pos) * (1e-12 : ℚ)) / mag / mag ^ 2
          = ((obj2.pos - obj1.pos) * (1e-12 : ℚ)) / mag ^ 3 from by
        rw [Vector.div_two_scalars, show mag * mag ^ 2 = mag ^ 3 from by ring]]
  · unfold moleculeInteraction
    rw [if_pos (not_lt.mp hgt)]

/-- Witness for C6: charges +1 and +1, positions `(0,0)` and
`(3e12, 4e12)` pm (metre-converted separation `(3,4)`, magnitude 5), radii
1 and 1. -/
theorem molecule_interaction_matches_claim_witness :
    if ((1 : ℚ) + 1) * 1e-12 < 5 then
      moleculeInteraction ⟨⟨0, 0⟩, 1, 1, ⟨0, 0⟩⟩ ⟨⟨3e12, 4e12⟩, 1, 1, ⟨0, 0⟩⟩ 5 =
        some (Vector.sub ⟨0, 0⟩ (coulombForceClaim ⟨⟨0, 0⟩, 1, 1, ⟨0, 0⟩⟩ ⟨⟨3e12, 4e12⟩, 1, 1, ⟨0, 0⟩⟩ 5),
              Vector.add ⟨0, 0⟩ (coulombForceClaim ⟨⟨0, 0⟩, 1, 1, ⟨0, 0⟩⟩ ⟨⟨3e12, 4e12⟩, 1, 1, ⟨0, 0⟩⟩ 5))
    else
      moleculeInteraction ⟨⟨0, 0⟩, 1, 1, ⟨0, 0⟩⟩ ⟨⟨3e12, 4e12⟩, 1, 1, ⟨0, 0⟩⟩ 5 =
        some (⟨0, 0⟩, ⟨0, 0⟩) :=
  molecule_interaction_matches_claim ⟨⟨0, 0⟩, 1, 1, ⟨0, 0⟩⟩ ⟨⟨3e12, 4e12⟩, 1, 1, ⟨0, 0⟩⟩ 5
    (by norm_num [IsMagnitude, Vector.sqMagnitude]) (by norm_num) (by norm_num)

end Sim

namespace Sim

/-- The first two statements of `Interactions._wall_collision`
(src/objects.py lines 225-227) for one axis: if the coordinate minus the
radius is at most 0, clamp the coordinate to `radius` and negate the
velocity component. -/
def wallClampLow (p v radius : ℚ) : ℚ × ℚ :=
  if p - radius ≤ 0 then (radius, -v) else (p, v)

/-- The next two statements (src/objects.py lines 228-230) for one axis:
if the (possibly already clamped) coordinate plus the radius reaches
`tot`, clamp the coordinate to `tot - radius` and negate the velocity
component. -/
def wallClampHigh (p v radius tot : ℚ) : ℚ × ℚ :=
  if p + radius ≥ tot then (tot - radius, -v) else (p, v)

/-- One axis of `_wall_collision`: the low-wall test followed by the
high-wall test, the second reading the coordinate the first wrote. -/
def wallAxis (p v radius tot : ℚ) : ℚ × ℚ :=
  wallClampHigh (wallClampLow p v radius).1 (wallClampLow p v radius).2 radius tot

/-- `Interactions._wall_collision` (src/objects.py lines 211-236) as a
function of the slot-`step` position and velocity values: the four ifs run
in source order; the x tests neither read nor write the y components, so
the call is the two independent axis passes.  Returns the position and
velocity values after the call (the source writes them back into the
slot-`step` `Vector` cells in place). -/
def wallCollision (pos vel : Vector) (radius x_tot y_tot : ℚ) : Vector × Vector :=
  (⟨(wallAxis pos.x vel.x radius x_tot).1, (wallAxis pos.y vel.y radius y_tot).1⟩,
   ⟨(wallAxis pos.x vel.x radius x_tot).2, (wallAxis pos.y vel.y radius y_tot).2⟩)

/-- C7 counterexample.  A body of radius 6000 at `(5000, 5000)` in the
10000×10000 domain: both x walls fire in turn and the final position
`x = 4000` violates the claimed bound `radius ≤ position.x`. -/
theorem wall_containment_fails_for_oversized_body :
    ¬ (6000 : ℚ) ≤ ((wallCollision ⟨5000, 5000⟩ ⟨0, 0⟩ 6000 10000 10000).1).x := by
  norm_num [wallCollision, wallAxis, wallClampLow, wallClampHigh]

/-- One axis stays within `[radius, tot - radius]` when the body fits,
i.e. when `2 * radius ≤ tot`. -/
theorem wallAxis_bounds (p v radius tot : ℚ) (h : 2 * radius ≤ tot) :
    radius ≤ (wallAxis p v radius tot).1 ∧ (wallAxis p v radius tot).1 ≤ tot - radius := by
  unfold wallAxis wallClampLow wallClampHigh
  split_ifs <;> constructor <;> simp_all <;> linarith

/-- C7 (amended).  Wall containment holds for every body whose diameter
fits the domain: if `2*radius ≤ width` and `2*radius ≤ height`, then after
`_wall_collision` the position satisfies `radius ≤ x ≤ width - radius` and
`radius ≤ y ≤ height - radius`.  (The unamended claim fails for a body
wider than the domain, see the counterexample.) -/
theorem wall_containment_when_body_fits (pos vel : Vector) (radius x_tot y_tot : ℚ)
    (hx : 2 * radius ≤ x_tot) (hy : 2 * radius ≤ y_tot) :
    radius ≤ ((wallCollision pos vel radius x_tot y_tot).1).x ∧
      ((wallCollision pos vel radius x_tot y_tot).1).x ≤ x_tot - radius ∧
      radius ≤ ((wallCollision pos vel radius x_tot y_tot).1).y ∧
      ((wallCollision pos vel radius x_tot y_tot).1).y ≤ y_tot - radius := by
  obtain ⟨hx1, hx2⟩ := wallAxis_bounds pos.x vel.x radius x_tot hx
  obtain ⟨hy1, hy2⟩ := wallAxis_bounds pos.y vel.y radius y_tot hy
  exact ⟨hx1, hx2, hy1, hy2⟩

/-- Witness for C7 (amended): radius 100 in the 10000×10000 domain, body
starting out of bounds at `(-50, 20000)`. -/
theorem wall_containment_when_body_fits_witness :
    (100 : ℚ) ≤ ((wallCollision ⟨-50, 20000⟩ ⟨3, 4⟩ 100 10000 10000).1).x ∧
      ((wallCollision ⟨-50, 20000⟩ ⟨3, 4⟩ 100 10000 10000).1).x ≤ 10000 - 100 ∧
      (100 : ℚ) ≤ ((wallCollision ⟨-50, 20000⟩ ⟨3, 4⟩ 100 10000 10000).1).y ∧
      ((wallCollision ⟨-50, 20000⟩ ⟨3, 4⟩ 100 10000 10000).1).y ≤ 10000 - 100 :=
  wall_containment_when_body_fits ⟨-50, 20000⟩ ⟨3, 4⟩ 100 10000 10000
    (by norm_num) (by norm_num)

end Sim

namespace Sim

/-! ## Reference-level embedding

Python `Vector`s are mutable heap objects and the history lists of a
`SimulationObject` hold references to them.  `next` (src/objects.py lines
102-111) appends `self.position[-1]` itself — the same reference — so the
new slot aliases the previous one, and `_wall_collision` mutates the
referenced cell in place, while every other write rebinds a list slot or an
attribute to a freshly allocated `Vector`.  The heap is the arena of every
`Vector` cell ever reachable from a history list. -/

/-- The arena of `Vector` cells; a reference is an index into it. -/
abbrev Heap := List Vector

/-- Dereference a cell.  Every reference stored by the embedding is a
previously allocated index, so the default is never returned on the states
the theorems speak about. -/
def Heap.deref (h : Heap) (r : ℕ) : Vector := h.getD r ⟨0, 0⟩

/-- Allocate a fresh cell holding `v`: the grown heap and the new
reference. -/
def Heap.alloc (h : Heap) (v : Vector) : Heap × ℕ := (h ++ [v], h.length)

/-- Overwrite the cell `r` in place (Python attribute assignment on a
shared `Vector`). -/
def Heap.writeCell (h : Heap) (r : ℕ) (v : Vector) : Heap := h.set r v

instance : Inhabited Vector := ⟨⟨0, 0⟩⟩

/-- A `SimulationObject` (src/objects.py lines 18-53): the position and
velocity histories are lists of references into the heap, the acceleration
accumulator, mass, radius and colour attributes, and the creation index.
The `Molecule` subclass (lines 158-184) adds `charge`; following the spec's
design note it is modelled as the base type plus an `isMolecule` tag. -/
structure PyObject where
  position : List ℕ
  velocity : List ℕ
  acceleration : Vector
  radius : ℚ
  mass : ℚ
  colour : ℕ × ℕ × ℕ
  index : ℕ
  isMolecule : Bool
  charge : ℤ
  deriving DecidableEq, Inhabited

/-- `SimulationObject.__init__` (src/objects.py lines 31-53), and
`Molecule.__init__` (lines 171-184) when `isMolecule` is true: allocates
the two initial cells, stores singleton histories pointing at them, zeroes
the acceleration and takes the next global index.  No validation happens —
any mass, including a non-positive one, is accepted. -/
def mkSimulationObject (heap : Heap) (global_index : ℕ)
    (x_0 y_0 vx_0 vy_0 radius mass : ℚ) (colour : ℕ × ℕ × ℕ)
    (isMolecule : Bool) (charge : ℤ) : PyObject × Heap × ℕ :=
  let a1 := heap.alloc ⟨x_0, y_0⟩
  let a2 := a1.1.alloc ⟨vx_0, vy_0⟩
  (⟨[a1.2], [a2.2], ⟨0, 0⟩, radius, mass, colour, global_index, isMolecule, charge⟩,
   a2.1, global_index + 1)

/-- `SimulationObject.next` (src/objects.py lines 102-111): reset the
acceleration to zero and append the last reference of each history again —
the same reference, not a copy, so the new slot aliases the previous
slot. -/
def PyObject.next (o : PyObject) : PyObject :=
  { o with acceleration := ⟨0, 0⟩,
           velocity := o.velocity ++ [o.velocity.getLastD 0],
           position := o.position ++ [o.position.getLastD 0] }

/-- `SimulationObject.step` (src/objects.py lines 113-131):
`velocity[step] += acceleration * dt` then `position[step] += velocity[step]
* dt` — each `+=` builds a new `Vector` and rebinds the list slot to it, and
the position update reads the velocity written just before it. -/
def PyObject.stepIntegrate (o : PyObject) (heap : Heap) (step : ℕ) (dt : ℚ) :
    PyObject × Heap :=
  let vNew := heap.deref (o.velocity.getD step 0) + o.acceleration * dt
  let av := heap.alloc vNew
  let o1 := { o with velocity := o.velocity.set step av.2 }
  let pNew := av.1.deref (o1.position.getD step 0) + vNew * dt
  let ap := av.1.alloc pNew
  ({ o1 with position := o1.position.set step ap.2 }, ap.1)

/-- `Interactions._wall_collision` (src/objects.py lines 211-236) on the
heap: reads the slot-`step` position and velocity cells, applies the four
clamping ifs (`wallCollision`), and writes the results back into the same
two cells — in-place mutation of the shared `Vector` objects.  The
reference lists are untouched.  (The two cells are distinct allocations for
every object `mkSimulationObject` builds, so reading both before writing
matches the interleaved source order.) -/
def wallCollisionHeap (o : PyObject) (heap : Heap) (step : ℕ) (x_tot y_tot : ℚ) : Heap :=
  let pr := o.position.getD step 0
  let vr := o.velocity.getD step 0
  let pv := wallCollision (heap.deref pr) (heap.deref vr) o.radius x_tot y_tot
  (heap.writeCell pr pv.1).writeCell vr pv.2

/-- `Interactions._elastic_collision` (src/objects.py lines 238-277) on the
heap.  The overlap test and every zero test are decided exactly
(`magnitudeGT`, `sqMagnitude = 0`); `sqrtFn` supplies the value of
`distance.magnitude` for the continuous normalization.  `none` models a
raised ZeroDivisionError.  On completion the two objects' slot-`step`
velocity slots are rebound to freshly allocated cells; positions and the
rest of the heap are untouched. -/
def elasticCollisionHeap (sqrtFn : ℚ → ℚ) (o1 o2 : PyObject) (heap : Heap) (step : ℕ) :
    Option (PyObject × PyObject × Heap) :=
  let distance := heap.deref (o2.position.getD step 0) - heap.deref (o1.position.getD step 0)
  if magnitudeGT distance (o1.radius + o2.radius) then some (o1, o2, heap)
  else if distance.sqMagnitude = 0 then none
  else
    let norm_vector := distance / sqrtFn distance.sqMagnitude
    let v1 := heap.deref (o1.velocity.getD step 0)
    let v2 := heap.deref (o2.velocity.getD step 0)
    let relative_velocity := dot_product (v1 - v2) norm_vector
    if relative_velocity < 0 then some (o1, o2, heap)
    else if o1.mass = 0 ∨ o2.mass = 0 then none
    else if 1 / o1.mass + 1 / o2.mass = 0 then none
    else
      let impulse := norm_vector * (2 * relative_velocity / (1 / o1.mass + 1 / o2.mass))
      let a1 := heap.alloc (v1 - impulse / o1.mass)
      let a2 := a1.1.alloc (v2 + impulse / o2.mass)
      some ({ o1 with velocity := o1.velocity.set step a1.2 },
            { o2 with velocity := o2.velocity.set step a2.2 }, a2.1)

/-- `Interactions._molecule_interaction` (src/objects.py lines 279-314) on
the heap: reads the slot-`step` positions, and on the force branch rebinds
both acceleration attributes (fresh `Vector`s; the heap is unchanged).
`none` models the ZeroDivisionError of a zero `magnitude ** 3`. -/
def moleculeInteractionHeap (sqrtFn : ℚ → ℚ) (o1 o2 : PyObject) (heap : Heap) (step : ℕ) :
    Option (PyObject × PyObject) :=
  let distance :=
    (heap.deref (o2.position.getD step 0) - heap.deref (o1.position.getD step 0)) * (1e-12 : ℚ)
  if ¬ magnitudeGT distance ((o1.radius + o2.radius) * 1e-12) then some (o1, o2)
  else if distance.sqMagnitude = 0 then none
  else
    let mag := sqrtFn distance.sqMagnitude
    let coulomb_1 := (o1.charge : ℚ) * elementary_charge
    let coulomb_2 := (o2.charge : ℚ) * elementary_charge
    let force := (distance / mag ^ 3 * (coulomb_1 * coulomb_2 / (4 * scipy_pi * scipy_epsilon_0))) * (1e12 : ℚ)
    some ({ o1 with acceleration := o1.acceleration - force },
          { o2 with acceleration := o2.acceleration + force })

/-- The whole mutable state of a run: the object list of `Interactions`
(src/objects.py line 205) and the heap. -/
structure SimState where
  objects : List PyObject
  heap : Heap
  deriving DecidableEq, Inhabited

/-- The body of the inner loop of `Interactions.calculate` (src/objects.py
lines 324-329) for the pair `(i, j)`: the Coulomb pass when both are
molecules, then the elastic-collision pass, each mutating the two objects
(and the heap) in place. -/
def pairInteraction (sqrtFn : ℚ → ℚ) (step i : ℕ) (st : SimState) (j : ℕ) :
    Option SimState :=
  let o1 := st.objects.getD i default
  let o2 := st.objects.getD j default
  match (if o1.isMolecule && o2.isMolecule
         then moleculeInteractionHeap sqrtFn o1 o2 st.heap step
         else some (o1, o2)) with
  | none => none
  | some (o1', o2') =>
    match elasticCollisionHeap sqrtFn o1' o2' st.heap step with
    | none => none
    | some (o1'', o2'', h') => some ⟨(st.objects.set i o1'').set j o2'', h'⟩

/-- One iteration of the outer loop of `Interactions.calculate`
(src/objects.py lines 324-331): all pairs `(i, j)` with `j > i`, then the
wall pass for object `i`. -/
def rowStep (sqrtFn : ℚ → ℚ) (x_tot y_tot : ℚ) (step : ℕ) (st : SimState) (i : ℕ) :
    Option SimState :=
  match (List.range' (i + 1) (st.objects.length - (i + 1))).foldlM
      (pairInteraction sqrtFn step i) st with
  | none => none
  | some st' =>
    some ⟨st'.objects, wallCollisionHeap (st'.objects.getD i default) st'.heap step x_tot y_tot⟩

/-- `Interactions.calculate` (src/objects.py lines 316-331). -/
def Interactions.calculate (sqrtFn : ℚ → ℚ) (st : SimState) (step : ℕ) (x_tot y_tot : ℚ) :
    Option SimState :=
  (List.range st.objects.length).foldlM (rowStep sqrtFn x_tot y_tot step) st

/-- The `for obj in objects: obj.step(step, dt)` pass of `calculate_objects`
(src/objects.py lines 365-367). -/
def stepAll (st : SimState) (step : ℕ) (dt : ℚ) : SimState :=
  (List.range st.objects.length).foldl
    (fun s k =>
      let r := (s.objects.getD k default).stepIntegrate s.heap step dt
      ⟨s.objects.set k r.1, r.2⟩) st

/-- One iteration of the `while time <= end_time` loop of
`calculate_objects` (src/objects.py lines 357-367): `next()` on every body,
`Interactions.calculate(step)`, then `step(step, dt)` on every body. -/
def loopBody (sqrtFn : ℚ → ℚ) (x_tot y_tot : ℚ) (st : SimState) (step : ℕ) (dt : ℚ) :
    Option SimState :=
  match Interactions.calculate sqrtFn ⟨st.objects.map PyObject.next, st.heap⟩ step x_tot y_tot with
  | none => none
  | some st' => some (stepAll st' step dt)

/-- What a bounded replay of the driver loop ends in: normal return,
a propagated Python exception, or fuel exhausted with the loop condition
still true (the run has not terminated within `fuel` iterations). -/
inductive RunOutcome where
  | ok (st : SimState)
  | err
  | spin
  deriving DecidableEq

/-- The `while time <= end_time` loop of `calculate_objects`
(src/objects.py lines 357-370), replayed for at most `fuel` iterations. -/
def runLoop (sqrtFn : ℚ → ℚ) (x_tot y_tot end_time dt : ℚ) :
    ℕ → SimState → ℚ → ℕ → RunOutcome
  | 0, st, time, _ => if time ≤ end_time then .spin else .ok st
  | fuel + 1, st, time, step =>
    if time ≤ end_time then
      match loopBody sqrtFn x_tot y_tot st step dt with
      | none => .err
      | some st' => runLoop sqrtFn x_tot y_tot end_time dt fuel st' (time + dt) (step + 1)
    else .ok st

/-- `calculate_objects` (src/objects.py lines 334-370): `time` starts at
`dt` and `step` at 1; the domain size comes from the `CoordSys` bounds
`x_tot`, `y_tot` (src/math_core.py lines 25-26 set both to 10000). -/
def calculate_objects (sqrtFn : ℚ → ℚ) (objects : List PyObject) (heap : Heap)
    (end_time dt x_tot y_tot : ℚ) (fuel : ℕ) : RunOutcome :=
  runLoop sqrtFn x_tot y_tot end_time dt fuel ⟨objects, heap⟩ dt 1

end Sim

namespace Sim

/-- C3.  `next` does not duplicate the previous slot: it appends the same
reference.  A body built at `(0, 5000)` with radius 100 (slot 0 holds
`(0, 5000)`): after `next()` both history slots hold the same reference,
and the wall clamp of step 1 — an in-place mutation of `position[1]` —
rewrites slot 0 as well, so reading the initial condition afterwards gives
`(100, 5000)`.  The claim that mutation during resolution changes only the
slot at index `step` and that slot 0 is never mutated fails on the code. -/
theorem next_aliasing_mutates_slot_zero :
    (mkSimulationObject [] 0 0 5000 0 0 100 1 (255, 255, 255) false 0).2.1.deref
        ((mkSimulationObject [] 0 0 5000 0 0 100 1 (255, 255, 255) false 0).1.position.getD 0 0)
      = ⟨0, 5000⟩ ∧
    (mkSimulationObject [] 0 0 5000 0 0 100 1 (255, 255, 255) false 0).1.next.position.getD 0 0
      = (mkSimulationObject [] 0 0 5000 0 0 100 1 (255, 255, 255) false 0).1.next.position.getD 1 0 ∧
    (wallCollisionHeap (mkSimulationObject [] 0 0 5000 0 0 100 1 (255, 255, 255) false 0).1.next
        (mkSimulationObject [] 0 0 5000 0 0 100 1 (255, 255, 255) false 0).2.1 1 10000 10000).deref
        ((mkSimulationObject [] 0 0 5000 0 0 100 1 (255, 255, 255) false 0).1.next.position.getD 0 0)
      = ⟨100, 5000⟩ := by
  refine ⟨rfl, rfl, ?_⟩
  norm_num [mkSimulationObject, Heap.alloc, Heap.deref, Heap.writeCell, PyObject.next,
    wallCollisionHeap, wallCollision, wallAxis, wallClampLow, wallClampHigh]

/-- With a zero time step the loop condition `time <= end_time` never
changes: from `time = 0`, every iteration of the (empty-body-list) driver
loop leaves the state and the elapsed time where they were, so no fuel
bound ever sees the loop exit. -/
theorem runLoop_dt_zero_spins (sqrtFn : ℚ → ℚ) :
    ∀ fuel step : ℕ,
      runLoop sqrtFn 10000 10000 1 0 fuel ⟨[], []⟩ 0 step = RunOutcome.spin := by
  intro fuel
  induction fuel with
  | zero => intro step; norm_num [runLoop]
  | succ n ih =>
    intro step
    have hb : loopBody sqrtFn 10000 10000 ⟨[], []⟩ step 0 = some ⟨[], []⟩ := rfl
    simp only [runLoop, hb]
    norm_num
    exact ih (step + 1)

/-- C8.  No `InvalidConfiguration` exists in the code: `__init__` accepts a
negative mass without complaint, and `calculate_objects` with `dt = 0` (and
`end_time = 1`) never terminates — `time` stays at 0 and the `while time <=
end_time` loop spins for every iteration bound — instead of raising at
construction. -/
theorem no_invalid_configuration_check :
    (mkSimulationObject [] 0 1 1 0 0 100 (-1) (255, 255, 255) false 0).1.mass = -1 ∧
    ∀ fuel : ℕ,
      calculate_objects (fun q => q) [] [] 1 0 10000 10000 fuel = RunOutcome.spin := by
  refine ⟨rfl, fun fuel => ?_⟩
  exact runLoop_dt_zero_spins (fun q => q) fuel 1

end Sim

namespace Sim

/-- The shape of an object's histories: (position length, velocity length). -/
def objShape (o : PyObject) : ℕ × ℕ := (o.position.length, o.velocity.length)

/-- The non-motion attributes of an object: mass, radius, colour, index,
molecule tag and charge. -/
def objMeta (o : PyObject) : ℚ × ℚ × (ℕ × ℕ × ℕ) × ℕ × Bool × ℤ :=
  (o.mass, o.radius, o.colour, o.index, o.isMolecule, o.charge)

/-- Shape and non-motion attributes together. -/
def objFrame (o : PyObject) : (ℕ × ℕ) × ℚ × ℚ × (ℕ × ℕ × ℕ) × ℕ × Bool × ℤ :=
  (objShape o, objMeta o)

theorem map_meta_of_map_frame {A B : List PyObject}
    (h : A.map objFrame = B.map objFrame) : A.map objMeta = B.map objMeta := by
  have h2 : A.map (Prod.snd ∘ objFrame) = B.map (Prod.snd ∘ objFrame) := by
    rw [← List.map_map, ← List.map_map, h]
  exact h2

theorem map_shape_of_map_frame {A B : List PyObject}
    (h : A.map objFrame = B.map objFrame) : A.map objShape = B.map objShape := by
  have h2 : A.map (Prod.fst ∘ objFrame) = B.map (Prod.fst ∘ objFrame) := by
    rw [← List.map_map, ← List.map_map, h]
  exact h2

/-- Setting a slot to an element with the same image leaves the mapped list
unchanged. -/
theorem map_set_invariant {γ : Type} (f : PyObject → γ) :
    ∀ (l : List PyObject) (i : ℕ) (a : PyObject), f a = f (l.getD i default) →
      (l.set i a).map f = l.map f := by
  intro l
  induction l with
  | nil => intro i a _; simp
  | cons x xs ih =>
    intro i a h
    cases i with
    | zero => simp only [List.getD_cons_zero] at h; simp [h]
    | succ n =>
      simp only [List.getD_cons_succ] at h
      simp only [List.set_cons_succ, List.map_cons]
      rw [ih n a h]

theorem getD_set_ne_default (l : List PyObject) {i j : ℕ} (hij : i ≠ j) (a : PyObject) :
    (l.set i a).getD j default = l.getD j default := by
  rw [List.getD_eq_get?, List.getD_eq_get?, List.get?_set_ne a l hij]

theorem elasticCollisionHeap_frame {sqrtFn : ℚ → ℚ} {o1 o2 : PyObject} {heap : Heap}
    {step : ℕ} {o1' o2' : PyObject} {h' : Heap}
    (h : elasticCollisionHeap sqrtFn o1 o2 heap step = some (o1', o2', h')) :
    objFrame o1' = objFrame o1 ∧ objFrame o2' = objFrame o2 := by
  unfold elasticCollisionHeap at h
  dsimp only at h
  split_ifs at h <;> simp only [Option.some.injEq, Prod.mk.injEq] at h
  · obtain ⟨rfl, rfl, rfl⟩ := h; exact ⟨rfl, rfl⟩
  · obtain ⟨rfl, rfl, rfl⟩ := h; exact ⟨rfl, rfl⟩
  · obtain ⟨rfl, rfl, rfl⟩ := h
    constructor <;> simp [objFrame, objShape, objMeta, List.length_set]

theorem moleculeInteractionHeap_frame {sqrtFn : ℚ → ℚ} {o1 o2 : PyObject} {heap : Heap}
    {step : ℕ} {o1' o2' : PyObject}
    (h : moleculeInteractionHeap sqrtFn o1 o2 heap step = some (o1', o2')) :
    objFrame o1' = objFrame o1 ∧ objFrame o2' = objFrame o2 := by
  unfold moleculeInteractionHeap at h
  dsimp only at h
  split_ifs at h <;> simp only [Option.some.injEq, Prod.mk.injEq] at h
  · obtain ⟨rfl, rfl⟩ := h; exact ⟨rfl, rfl⟩
  · obtain ⟨rfl, rfl⟩ := h
    constructor <;> simp [objFrame, objShape, objMeta]

theorem stepIntegrate_frame (o : PyObject) (heap : Heap) (step : ℕ) (dt : ℚ) :
    objFrame (o.stepIntegrate heap step dt).1 = objFrame o := by
  unfold PyObject.stepIntegrate
  simp [objFrame, objShape, objMeta, List.length_set]

/-- Folding a state through `Option`-valued steps that each preserve `P`
preserves `P`. -/
theorem foldlM_option_preserve {α : Type} (P : SimState → Prop)
    (f : SimState → α → Option SimState) :
    ∀ (l : List α) (b b' : SimState),
      (∀ x ∈ l, ∀ c c', f c x = some c' → P c → P c') →
      l.foldlM f b = some b' → P b → P b' := by
  intro l
  induction l with
  | nil =>
    intro b b' _ h hb
    simp only [List.foldlM_nil] at h
    cases h; exact hb
  | cons x xs ih =>
    intro b b' hf h hb
    rw [List.foldlM_cons] at h
    obtain ⟨c, hc, hrest⟩ := Option.bind_eq_some.mp h
    exact ih c b' (fun y hy => hf y (List.mem_cons_of_mem x hy)) hrest
      (hf x (List.mem_cons_self x xs) b c hc hb)

theorem foldl_preserve {α : Type} (P : SimState → Prop) (f : SimState → α → SimState) :
    ∀ (l : List α) (b : SimState), (∀ x c, P c → P (f c x)) → P b → P (l.foldl f b) := by
  intro l
  induction l with
  | nil => intro b _ hb; exact hb
  | cons x xs ih => intro b hf hb; exact ih (f b x) hf (hf x b hb)

theorem pairInteraction_frames {sqrtFn : ℚ → ℚ} {step i : ℕ} {st st' : SimState} {j : ℕ}
    (hij : i ≠ j) (h : pairInteraction sqrtFn step i st j = some st') :
    st'.objects.map objFrame = st.objects.map objFrame := by
  unfold pairInteraction at h
  dsimp only at h
  cases hm : (if ((st.objects.getD i default).isMolecule &&
        (st.objects.getD j default).isMolecule) = true
      then moleculeInteractionHeap sqrtFn (st.objects.getD i default)
        (st.objects.getD j default) st.heap step
      else some (st.objects.getD i default, st.objects.getD j default)) with
  | none => rw [hm] at h; simp at h
  | some p =>
    obtain ⟨p1, p2⟩ := p
    rw [hm] at h
    dsimp only at h
    cases he : elasticCollisionHeap sqrtFn p1 p2 st.heap step with
    | none => rw [he] at h; simp at h
    | some q =>
      obtain ⟨q1, q2, qh⟩ := q
      rw [he] at h
      dsimp only at h
      simp only [Option.some.injEq] at h
      subst h
      have hp : objFrame p1 = objFrame (st.objects.getD i default) ∧
          objFrame p2 = objFrame (st.objects.getD j default) := by
        split_ifs at hm with hmol
        · exact moleculeInteractionHeap_frame hm
        · simp only [Option.some.injEq, Prod.mk.injEq] at hm
          obtain ⟨h1, h2⟩ := hm
          rw [← h1, ← h2]; exact ⟨rfl, rfl⟩
      obtain ⟨he1, he2⟩ := elasticCollisionHeap_frame he
      show ((st.objects.set i q1).set j q2).map objFrame = st.objects.map objFrame
      rw [map_set_invariant objFrame (st.objects.set i q1) j q2
            (by rw [getD_set_ne_default st.objects hij, he2, hp.2]),
          map_set_invariant objFrame st.objects i q1 (by rw [he1, hp.1])]

theorem rowStep_frames {sqrtFn : ℚ → ℚ} {x_tot y_tot : ℚ} {step : ℕ} {st st' : SimState}
    {i : ℕ} (h : rowStep sqrtFn x_tot y_tot step st i = some st') :
    st'.objects.map objFrame = st.objects.map objFrame := by
  unfold rowStep at h
  split at h
  · exact absurd h (by simp)
  · rename_i st1 heq
    simp only [Option.some.injEq] at h
    subst h
    exact foldlM_option_preserve
      (fun s => s.objects.map objFrame = st.objects.map objFrame) _ _ st st1
      (fun j hj c c' hpair hc => by
        have hij : i ≠ j := by
          obtain ⟨k, _, rfl⟩ := List.mem_range'.mp hj; omega
        show List.map objFrame c'.objects = List.map objFrame st.objects
        rw [pairInteraction_frames hij hpair]; exact hc)
      heq rfl

theorem calculate_frames {sqrtFn : ℚ → ℚ} {st : SimState} {step : ℕ} {x_tot y_tot : ℚ}
    {st' : SimState} (h : Interactions.calculate sqrtFn st step x_tot y_tot = some st') :
    st'.objects.map objFrame = st.objects.map objFrame := by
  unfold Interactions.calculate at h
  exact foldlM_option_preserve
    (fun s => s.objects.map objFrame = st.objects.map objFrame) _ _ st st'
    (fun i _ c c' hrow hc => (rowStep_frames hrow).trans hc) h rfl

theorem stepAll_frames (st : SimState) (step : ℕ) (dt : ℚ) :
    (stepAll st step dt).objects.map objFrame = st.objects.map objFrame := by
  unfold stepAll
  exact foldl_preserve (fun s => s.objects.map objFrame = st.objects.map objFrame) _ _ st
    (fun k c hc => by
      dsimp only
      rw [map_set_invariant objFrame c.objects k _ (stepIntegrate_frame _ c.heap _ dt)]
      exact hc)
    rfl

theorem loopBody_frames {sqrtFn : ℚ → ℚ} {x_tot y_tot : ℚ} {st : SimState} {step : ℕ}
    {dt : ℚ} {st' : SimState} (h : loopBody sqrtFn x_tot y_tot st step dt = some st') :
    st'.objects.map objFrame = (st.objects.map PyObject.next).map objFrame := by
  unfold loopBody at h
  split at h
  · exact absurd h (by simp)
  · rename_i st2 heq
    simp only [Option.some.injEq] at h
    subst h
    rw [stepAll_frames]
    exact calculate_frames heq

/-- C10.  One full pass of the driver-loop body — `next()` on every body,
`Interactions.calculate(step)`, then `step(step, dt)` on every body — never
changes any body's mass, radius, colour, charge, index (or molecule tag):
the list of those attribute tuples is the same before and after.  Only the
position/velocity histories and the acceleration accumulator change. -/
theorem pass_preserves_body_attributes {sqrtFn : ℚ → ℚ} {x_tot y_tot : ℚ}
    {st : SimState} {step : ℕ} {dt : ℚ} {st' : SimState}
    (h : loopBody sqrtFn x_tot y_tot st step dt = some st') :
    st'.objects.map objMeta = st.objects.map objMeta := by
  have hm := map_meta_of_map_frame (loopBody_frames h)
  rw [hm, List.map_map]
  have : objMeta ∘ PyObject.next = objMeta := by
    funext o; rfl
  rw [this]

end Sim

namespace Sim

/-- Every body's histories have exactly `n` slots. -/
def Lens (st : SimState) (n : ℕ) : Prop :=
  ∀ o ∈ st.objects, o.position.length = n ∧ o.velocity.length = n

theorem loopBody_lens {sqrtFn : ℚ → ℚ} {x_tot y_tot : ℚ} {st : SimState} {step : ℕ}
    {dt : ℚ} {st' : SimState} {n : ℕ}
    (h : loopBody sqrtFn x_tot y_tot st step dt = some st') (hl : Lens st n) :
    Lens st' (n + 1) := by
  intro o ho
  have hmem : objShape o ∈ st'.objects.map objShape := List.mem_map_of_mem _ ho
  rw [map_shape_of_map_frame (loopBody_frames h), List.map_map] at hmem
  obtain ⟨b, hb, hbe⟩ := List.mem_map.mp hmem
  obtain ⟨hbp, hbv⟩ := hl b hb
  have hshape : objShape o = (b.position.length + 1, b.velocity.length + 1) := by
    rw [← hbe]
    show objShape b.next = _
    unfold PyObject.next objShape
    simp
  have h1 : o.position.length = b.position.length + 1 := congrArg Prod.fst hshape
  have h2 : o.velocity.length = b.velocity.length + 1 := congrArg Prod.snd hshape
  rw [h1, h2, hbp, hbv]
  exact ⟨rfl, rfl⟩

/-- Partial correctness of the driver loop: entering `runLoop` with
`time = step * dt`, `(step - 1) * dt ≤ end_time` and `step`-slot histories,
a normal return carries histories of exactly `⌊end_time / dt⌋ + 1` slots. -/
theorem runLoop_ok_lens (sqrtFn : ℚ → ℚ) (x_tot y_tot end_time dt : ℚ)
    (hdt : 0 < dt) (hend : 0 ≤ end_time) :
    ∀ (fuel : ℕ) (st : SimState) (time : ℚ) (step : ℕ) (final : SimState),
      1 ≤ step → time = (step : ℚ) * dt → ((step : ℚ) - 1) * dt ≤ end_time →
      Lens st step →
      runLoop sqrtFn x_tot y_tot end_time dt fuel st time step = RunOutcome.ok final →
      Lens final (Nat.floor (end_time / dt) + 1) := by
  have exit_eq : ∀ (step : ℕ) (time : ℚ), 1 ≤ step → time = (step : ℚ) * dt →
      ((step : ℚ) - 1) * dt ≤ end_time → ¬ time ≤ end_time →
      Nat.floor (end_time / dt) + 1 = step := by
    intro step time h1 h2 h3 h4
    push_neg at h4
    have hlow : ((step : ℚ) - 1) ≤ end_time / dt := (le_div_iff hdt).mpr h3
    have hhigh : end_time / dt < (step : ℚ) := by
      rw [div_lt_iff hdt]; rw [h2] at h4; exact h4
    have hfloor : Nat.floor (end_time / dt) = step - 1 := by
      rw [Nat.floor_eq_iff (div_nonneg hend (le_of_lt hdt))]
      constructor
      · rw [Nat.cast_sub h1]; exact_mod_cast hlow
      · have : ((step - 1 : ℕ) : ℚ) + 1 = (step : ℚ) := by
          rw [Nat.cast_sub h1]; ring
        rw [this]; exact hhigh
    omega
  intro fuel
  induction fuel with
  | zero =>
    intro st time step final h1 h2 h3 hlens hrun
    unfold runLoop at hrun
    split_ifs at hrun with hc
    simp only [RunOutcome.ok.injEq] at hrun
    subst hrun
    rw [exit_eq step time h1 h2 h3 hc]
    exact hlens
  | succ n ih =>
    intro st time step final h1 h2 h3 hlens hrun
    unfold runLoop at hrun
    split_ifs at hrun with hc
    · cases hb : loopBody sqrtFn x_tot y_tot st step dt with
      | none => rw [hb] at hrun; simp at hrun
      | some st2 =>
        rw [hb] at hrun
        dsimp only at hrun
        refine ih st2 (time + dt) (step + 1) final (by omega) ?_ ?_
          (loopBody_lens hb hlens) hrun
        · rw [h2]; push_cast; ring
        · push_cast
          rw [add_sub_cancel_right, ← h2]
          exact hc
    · simp only [RunOutcome.ok.injEq] at hrun
      subst hrun
      rw [exit_eq step time h1 h2 h3 hc]
      exact hlens

/-- C9.  For a positive `end_time` and `dt` (exact rational time
accumulation) and bodies built with one initial slot, a normal return of
`calculate_objects` leaves every body with exactly `⌊end_time/dt⌋ + 1`
(position, velocity) pairs — one per step from 0 to `⌊end_time/dt⌋` — and
every step index up to that highest computed step is retrievable. -/
theorem run_keeps_one_slot_per_step (sqrtFn : ℚ → ℚ) (objects : List PyObject)
    (heap : Heap) (end_time dt x_tot y_tot : ℚ) (fuel : ℕ) (final : SimState)
    (hdt : 0 < dt) (hend : 0 < end_time) (hne : objects ≠ [])
    (hinit : ∀ o ∈ objects, o.position.length = 1 ∧ o.velocity.length = 1)
    (hrun : calculate_objects sqrtFn objects heap end_time dt x_tot y_tot fuel =
      RunOutcome.ok final) :
    ∀ o ∈ final.objects,
      o.position.length = Nat.floor (end_time / dt) + 1 ∧
      o.velocity.length = Nat.floor (end_time / dt) + 1 ∧
      ∀ s ≤ Nat.floor (end_time / dt),
        (o.position.get? s).isSome ∧ (o.velocity.get? s).isSome := by
  have hlens : Lens final (Nat.floor (end_time / dt) + 1) := by
    refine runLoop_ok_lens sqrtFn x_tot y_tot end_time dt hdt (le_of_lt hend)
      fuel ⟨objects, heap⟩ dt 1 final le_rfl (by norm_num) (by norm_num [le_of_lt hend])
      hinit hrun
  intro o ho
  obtain ⟨hp, hv⟩ := hlens o ho
  refine ⟨hp, hv, fun s hs => ?_⟩
  constructor
  · have hlt : s < o.position.length := by omega
    simp [List.get?_eq_getElem?, hlt]
  · have hlt : s < o.velocity.length := by omega
    simp [List.get?_eq_getElem?, hlt]

end Sim

namespace Sim

/-- Witness for C9: one body at `(5000, 5000)` with one initial slot,
`end_time = 1`, `dt = 1` — the run returns normally after one iteration and
the body's histories have `⌊1/1⌋ + 1 = 2` slots, with slot 1 retrievable. -/
theorem run_keeps_one_slot_per_step_witness :
    (⟨[0, 3], [1, 2], ⟨0, 0⟩, 100, 1, (255, 255, 255), 0, false, 0⟩ : PyObject).position.length
        = Nat.floor ((1 : ℚ) / 1) + 1 ∧
      (⟨[0, 3], [1, 2], ⟨0, 0⟩, 100, 1, (255, 255, 255), 0, false, 0⟩ : PyObject).velocity.length
        = Nat.floor ((1 : ℚ) / 1) + 1 ∧
      ((⟨[0, 3], [1, 2], ⟨0, 0⟩, 100, 1, (255, 255, 255), 0, false, 0⟩ : PyObject).position.get? 1).isSome ∧
      ((⟨[0, 3], [1, 2], ⟨0, 0⟩, 100, 1, (255, 255, 255), 0, false, 0⟩ : PyObject).velocity.get? 1).isSome := by
  have h := run_keeps_one_slot_per_step (fun _ => 1)
    [⟨[0], [1], ⟨0, 0⟩, 100, 1, (255, 255, 255), 0, false, 0⟩]
    [⟨5000, 5000⟩, ⟨0, 0⟩] 1 1 10000 10000 2
    ⟨[⟨[0, 3], [1, 2], ⟨0, 0⟩, 100, 1, (255, 255, 255), 0, false, 0⟩],
      [⟨5000, 5000⟩, ⟨0, 0⟩, ⟨0, 0⟩, ⟨5000, 5000⟩]⟩
    (by norm_num) (by norm_num) (by simp)
    (by intro o ho; simp only [List.mem_singleton] at ho; subst ho; exact ⟨rfl, rfl⟩)
    (by norm_num [calculate_objects, runLoop, loopBody, Interactions.calculate, rowStep,
      pairInteraction, stepAll, PyObject.stepIntegrate, PyObject.next, wallCollisionHeap,
      wallCollision, wallAxis, wallClampLow, wallClampHigh, Heap.deref, Heap.writeCell,
      Heap.alloc, List.range_succ, List.range'])
  have h2 := h ⟨[0, 3], [1, 2], ⟨0, 0⟩, 100, 1, (255, 255, 255), 0, false, 0⟩ (by simp)
  exact ⟨h2.1, h2.2.1, (h2.2.2 1 (by norm_num)).1, (h2.2.2 1 (by norm_num)).2⟩

/-- Witness for C10: the driver-loop body on the same one-body state keeps
the attribute tuple (mass 1, radius 100, colour, index 0, tag, charge). -/
theorem pass_preserves_body_attributes_witness :
    ([⟨[0, 3], [1, 2], ⟨0, 0⟩, 100, 1, (255, 255, 255), 0, false, 0⟩] : List PyObject).map objMeta
      = ([⟨[0], [1], ⟨0, 0⟩, 100, 1, (255, 255, 255), 0, false, 0⟩] : List PyObject).map objMeta :=
  @pass_preserves_body_attributes (fun _ => 1) 10000 10000
    ⟨[⟨[0], [1], ⟨0, 0⟩, 100, 1, (255, 255, 255), 0, false, 0⟩], [⟨5000, 5000⟩, ⟨0, 0⟩]⟩ 1 1
    ⟨[⟨[0, 3], [1, 2], ⟨0, 0⟩, 100, 1, (255, 255, 255), 0, false, 0⟩],
      [⟨5000, 5000⟩, ⟨0, 0⟩, ⟨0, 0⟩, ⟨5000, 5000⟩]⟩
    (by norm_num [loopBody, Interactions.calculate, rowStep, pairInteraction, stepAll,
      PyObject.stepIntegrate, PyObject.next, wallCollisionHeap, wallCollision, wallAxis,
      wallClampLow, wallClampHigh, Heap.deref, Heap.writeCell, Heap.alloc,
      List.range_succ, List.range'])

end Sim
